import Mathlib

/-!
Shallow embedding of the speech-generator repository.

Two standalone CLI programs are modelled:
* variant A, `src/tts.js` (OpenAI `tts-1-hd` / `gpt-4o-mini-tts`): chunked
  synthesis, WAV responses concatenated with the 44-byte header stripped from
  every response after the first;
* variant B, `src/tts-gemini.js` (Gemini): single request, raw PCM payload,
  44-byte WAV header constructed locally by `saveWav`.

Bytes are modelled as `Nat` (values 0..255), text as `List Char`, environment
variables and `process.argv` entries as `Option String` (`none` = unset).
Network and filesystem effects are passed in as explicit oracles.
-/

/-! ## JavaScript string primitives -/

/-- Whitespace as recognised by ECMAScript `String.prototype.trim`
(space, tab, LF, VT, FF, CR, NBSP, Ogham space, the U+2000 block,
LS, PS, NNBSP, MMSP, ideographic space, BOM). -/
def isJsWs (c : Char) : Bool :=
  let n := c.toNat
  n == 9 || n == 10 || n == 11 || n == 12 || n == 13 || n == 32 ||
  n == 160 || n == 0x1680 || (decide (0x2000 ≤ n) && decide (n ≤ 0x200A)) ||
  n == 0x2028 || n == 0x2029 || n == 0x202F || n == 0x205F || n == 0x3000 ||
  n == 0xFEFF

/-- JavaScript `s.trim()`: drop leading and trailing whitespace. -/
def jsTrim (l : List Char) : List Char :=
  ((l.dropWhile isJsWs).reverse.dropWhile isJsWs).reverse

/-- JavaScript `env.X || d` (both `undefined` and the empty string are falsy). -/
def envOr : Option String → String → String
  | none, d => d
  | some s, d => if s = "" then d else s

/-- JavaScript truthiness of an optional string (`undefined` and `""` are falsy). -/
def truthy : Option String → Bool
  | none => false
  | some s => s != ""

/-- JavaScript `buf.slice(s, e)` for `0 ≤ s ≤ e` (clamped, never throws). -/
def jsSlice (l : List α) (s e : Nat) : List α := (l.take e).drop s

/-- JavaScript `buf.slice(s)` for `0 ≤ s` (clamped, never throws). -/
def jsSliceFrom (l : List α) (s : Nat) : List α := l.drop s

/-! ## Variant A constants (src/tts.js lines 23-30) -/

def HEADER_BYTES : Nat := 44

def CHUNK_LEN : Nat := 8000

/-! ## Chunker (src/tts.js lines 59-63)

`for (let i = 0; i < text.length; i += CHUNK_LEN) chunks.push(text.slice(i, i + CHUNK_LEN))`.

The loop is modelled with an explicit index `i` and a fuel argument that only
bounds the number of iterations; `text.length` iterations are always enough
because each iteration advances `i` by `CHUNK_LEN = 8000 ≥ 1`. -/

def chunksGo (text : List Char) : Nat → Nat → List (List Char)
  | _, 0 => []
  | i, fuel + 1 =>
    if i < text.length then
      jsSlice text i (i + CHUNK_LEN) :: chunksGo text (i + CHUNK_LEN) fuel
    else []

/-- The chunk list built by the loop at src/tts.js lines 60-63. -/
def chunksJs (text : List Char) : List (List Char) :=
  chunksGo text 0 text.length

/-! ### Chunker lemmas -/

theorem chunksGo_of_ge (text : List Char) (fuel i : Nat) (h : text.length ≤ i) :
    chunksGo text i fuel = [] := by
  cases fuel with
  | zero => rfl
  | succ n => simp [chunksGo, Nat.not_lt.mpr h]

theorem chunksGo_flatten (text : List Char) (fuel : Nat) :
    ∀ i, (text.length - i + (CHUNK_LEN - 1)) / CHUNK_LEN ≤ fuel →
      (chunksGo text i fuel).flatten = text.drop i := by
  induction fuel with
  | zero =>
    intro i h
    have hle : text.length ≤ i := by
      simp only [CHUNK_LEN] at h
      omega
    rw [chunksGo, List.flatten_nil, List.drop_eq_nil_of_le hle]
  | succ n ih =>
    intro i h
    rw [chunksGo]
    by_cases hi : i < text.length
    · rw [if_pos hi, List.flatten_cons]
      have hrec : (text.length - (i + CHUNK_LEN) + (CHUNK_LEN - 1)) / CHUNK_LEN ≤ n := by
        simp only [CHUNK_LEN] at h ⊢
        omega
      rw [ih (i + CHUNK_LEN) hrec]
      have hslice : jsSlice text i (i + CHUNK_LEN) = (text.drop i).take CHUNK_LEN := by
        rw [jsSlice, List.drop_take, Nat.add_sub_cancel_left]
      have hdrop : text.drop (i + CHUNK_LEN) = (text.drop i).drop CHUNK_LEN := by
        rw [List.drop_drop]
      rw [hslice, hdrop, List.take_append_drop]
    · rw [if_neg hi, List.flatten_nil,
        List.drop_eq_nil_of_le (Nat.not_lt.mp hi)]

theorem chunksGo_length (text : List Char) (fuel : Nat) :
    ∀ i, (text.length - i + (CHUNK_LEN - 1)) / CHUNK_LEN ≤ fuel →
      (chunksGo text i fuel).length = (text.length - i + (CHUNK_LEN - 1)) / CHUNK_LEN := by
  induction fuel with
  | zero =>
    intro i h
    rw [chunksGo]
    simp only [List.length_nil, CHUNK_LEN] at h ⊢
    omega
  | succ n ih =>
    intro i h
    rw [chunksGo]
    by_cases hi : i < text.length
    · rw [if_pos hi]
      have hrec : (text.length - (i + CHUNK_LEN) + (CHUNK_LEN - 1)) / CHUNK_LEN ≤ n := by
        simp only [CHUNK_LEN] at h ⊢
        omega
      simp only [List.length_cons, ih (i + CHUNK_LEN) hrec]
      simp only [CHUNK_LEN]
      omega
    · rw [if_neg hi]
      simp only [List.length_nil, CHUNK_LEN]
      omega

theorem chunksGo_chunk_le (text : List Char) (fuel : Nat) :
    ∀ i, ∀ c ∈ chunksGo text i fuel, c.length ≤ CHUNK_LEN := by
  induction fuel with
  | zero => intro i c hc; simp [chunksGo] at hc
  | succ n ih =>
    intro i c hc
    rw [chunksGo] at hc
    by_cases hi : i < text.length
    · rw [if_pos hi] at hc
      rcases List.mem_cons.mp hc with hc | hc
      · subst hc
        simp only [jsSlice, List.length_drop, List.length_take]
        omega
      · exact ih (i + CHUNK_LEN) c hc
    · rw [if_neg hi] at hc
      simp at hc

theorem chunksGo_full (text : List Char) (fuel : Nat) :
    ∀ i j, j + 1 < (chunksGo text i fuel).length →
      ((chunksGo text i fuel).getD j []).length = CHUNK_LEN := by
  induction fuel with
  | zero => intro i j hj; simp [chunksGo] at hj
  | succ n ih =>
    intro i j hj
    rw [chunksGo] at hj ⊢
    by_cases hi : i < text.length
    · rw [if_pos hi] at hj ⊢
      cases j with
      | zero =>
        have hne : chunksGo text (i + CHUNK_LEN) n ≠ [] := by
          intro hnil
          rw [hnil] at hj
          simp at hj
        have hlt : i + CHUNK_LEN < text.length := by
          by_contra hge
          exact hne (chunksGo_of_ge text n (i + CHUNK_LEN) (Nat.not_lt.mp hge))
        simp only [List.getD_cons_zero, jsSlice, List.length_drop, List.length_take]
        omega
      | succ m =>
        simp only [List.getD_cons_succ]
        apply ih (i + CHUNK_LEN) m
        simp only [List.length_cons] at hj
        omega
    · rw [if_neg hi] at hj
      simp at hj

theorem chunksJs_flatten (text : List Char) : (chunksJs text).flatten = text := by
  have h := chunksGo_flatten text text.length 0 (by simp only [CHUNK_LEN]; omega)
  simpa using h

theorem chunksJs_length (text : List Char) :
    (chunksJs text).length = (text.length + (CHUNK_LEN - 1)) / CHUNK_LEN := by
  have h := chunksGo_length text text.length 0 (by simp only [CHUNK_LEN]; omega)
  simpa using h

/-! ## JavaScript `parseFloat` (used at src/tts.js line 27)

Modelled as an idealised decimal parse returning `Option ℚ`, with `none`
playing the role of `NaN`: optional leading whitespace, optional sign, digits
with an optional fraction and an optional exponent, parsing the longest valid
numeric prefix.  `Infinity` literals and binary-float rounding are not
modelled; no claim depends on them. -/

def digitVal (c : Char) : Option Nat :=
  if '0' ≤ c ∧ c ≤ '9' then some (c.toNat - 48) else none

def spanDigits : List Char → List Nat × List Char
  | [] => ([], [])
  | c :: rest =>
    match digitVal c with
    | some d => let p := spanDigits rest; (d :: p.1, p.2)
    | none => ([], c :: rest)

def natOfDigits (ds : List Nat) : Nat := ds.foldl (fun a d => a * 10 + d) 0

def jsParseFloat (s : String) : Option ℚ :=
  let l0 := s.data.dropWhile isJsWs
  let sl : ℚ × List Char :=
    match l0 with
    | '-' :: r => (-1, r)
    | '+' :: r => (1, r)
    | _ => (1, l0)
  let ip := spanDigits sl.2
  let fp : List Nat × List Char :=
    match ip.2 with
    | '.' :: r => spanDigits r
    | _ => ([], ip.2)
  if ip.1 = [] ∧ fp.1 = [] then none
  else
    let mant : ℚ := (natOfDigits ip.1 : ℚ) + (natOfDigits fp.1 : ℚ) / (10 : ℚ) ^ fp.1.length
    let e : Int :=
      match fp.2 with
      | c :: r =>
        if c = 'e' ∨ c = 'E' then
          match r with
          | '-' :: r2 => -(natOfDigits (spanDigits r2).1 : Int)
          | '+' :: r2 => (natOfDigits (spanDigits r2).1 : Int)
          | _ => (natOfDigits (spanDigits r).1 : Int)
        else 0
      | [] => 0
    some (sl.1 * mant * (10 : ℚ) ^ e)

/-! ## Variant A synthesis request (src/tts.js lines 74-83) -/

/-- The request object passed to `client.audio.speech.create`.  `speed` and
`voice` are present only on the non-instruction branch; `instructions` only on
the `gpt-4o-mini-tts` branch.  The inner `Option ℚ` of `speed` is the
`parseFloat` result, `none` standing for `NaN`. -/
structure TtsParams where
  model : String
  input : List Char
  format : String
  voice : Option String
  speed : Option (Option ℚ)
  instructions : Option String
  deriving DecidableEq, Repr

/-- src/tts.js lines 25-28 and 74-83: resolve the configuration and build the
per-chunk request. -/
def buildParamsA (model voice instr : Option String) (speedStr : Option String)
    (chunk : List Char) : TtsParams :=
  let MODEL := envOr model "tts-1-hd"
  let VOICE := envOr voice "fable"
  let SPEED := jsParseFloat (envOr speedStr "1.0")
  let INSTR := envOr instr "Calm, slightly dramatic storyteller."
  if MODEL = "gpt-4o-mini-tts" then
    { model := MODEL, input := chunk, format := "wav",
      voice := none, speed := none, instructions := some INSTR }
  else
    { model := MODEL, input := chunk, format := "wav",
      voice := some VOICE, speed := some SPEED, instructions := none }

/-! ## Variant A synthesis/assembly loop (src/tts.js lines 69-101)

For each chunk the loop issues one request; the response buffer is written in
full for the first chunk and with `buffer.slice(HEADER_BYTES)` for every later
chunk.  `respond i = none` models the `await` throwing on call `i` (the `catch`
then deletes the partial file and exits 1).  `written` records the bytes the
loop has put into the stream, `failed` whether the `catch` ran, and `calls` how
many requests were issued. -/

structure LoopOut where
  calls : Nat
  requests : List TtsParams
  written : List Nat
  failed : Bool
  deriving DecidableEq, Repr

def loopA (mk : List Char → TtsParams) (respond : Nat → Option (List Nat)) :
    Nat → List (List Char) → LoopOut
  | _, [] => ⟨0, [], [], false⟩
  | i, c :: rest =>
    match respond i with
    | none => ⟨1, [mk c], [], true⟩
    | some buf =>
      let piece := if i = 0 then buf else jsSliceFrom buf HEADER_BYTES
      let r := loopA mk respond (i + 1) rest
      ⟨r.calls + 1, mk c :: r.requests, piece ++ r.written, r.failed⟩

/-! ## Variant A whole program (src/tts.js `main`) -/

/-- Process state visible to `main` of src/tts.js: environment variables,
the two CLI arguments, and the input file. -/
structure EnvA where
  OPENAI_API_KEY : Option String
  TTS_MODEL : Option String
  TTS_VOICE : Option String
  TTS_SPEED : Option String
  TTS_INSTR : Option String
  argvIn : Option String
  argvOut : Option String
  inFileExists : Bool
  inFileContent : List Char
  deriving Repr

/-- Observable outcome of a run of src/tts.js.  `outputFile` is the content of
the output file when the process exits (`none` if it was never created or was
deleted by the `catch` handler); `inputRead` records whether the input file was
read; `networkCalls` counts synthesis requests. -/
structure ResultA where
  exitCode : Nat
  errMsg : Option String
  networkCalls : Nat
  outputFile : Option (List Nat)
  inputRead : Bool
  requests : List TtsParams
  deriving DecidableEq, Repr

/-- src/tts.js `main` (lines 32-109): credential check, argument check, input
existence check, read + trim + empty check, chunk, then the synthesis loop; on
a loop failure the `catch` (lines 95-98) unlinks the output and exits 1. -/
def mainA (env : EnvA) (respond : Nat → Option (List Nat)) : ResultA :=
  if truthy env.OPENAI_API_KEY then
    if truthy env.argvIn && truthy env.argvOut then
      if env.inFileExists then
        let text := jsTrim env.inFileContent
        if text = [] then
          ⟨1, some "ERROR: input file is empty", 0, none, true, []⟩
        else
          let mk := buildParamsA env.TTS_MODEL env.TTS_VOICE env.TTS_INSTR env.TTS_SPEED
          let r := loopA mk respond 0 (chunksJs text)
          if r.failed then
            ⟨1, some "TTS generation failed:", r.calls, none, true, r.requests⟩
          else
            ⟨0, none, r.calls, some r.written, true, r.requests⟩
      else ⟨1, some "ERROR: input file not found", 0, none, false, []⟩
    else ⟨1, some "Usage: node src/tts.js <input.txt> <output.wav>", 0, none, false, []⟩
  else ⟨1, some "ERROR: OPENAI_API_KEY missing in .env", 0, none, false, []⟩

/-! ### Assembly loop lemmas -/

/-- Closed form of a fully successful run of the synthesis loop starting at
index `i`: one request per chunk, no failure, and the stream receives each
response in order, the response of call `j` written whole when `j = 0` and
with the first `HEADER_BYTES` bytes sliced off otherwise. -/
theorem loopA_ok (mk : List Char → TtsParams) (respond : Nat → Option (List Nat))
    (g : Nat → List Nat) :
    ∀ (cs : List (List Char)) (i : Nat),
      (∀ j, j < cs.length → respond (i + j) = some (g (i + j))) →
      loopA mk respond i cs =
        ⟨cs.length, cs.map mk,
         ((List.range cs.length).map
           (fun j => if i + j = 0 then g (i + j)
                     else jsSliceFrom (g (i + j)) HEADER_BYTES)).flatten,
         false⟩ := by
  intro cs
  induction cs with
  | nil => intro i h; rfl
  | cons c rest ih =>
    intro i h
    have h0 : respond i = some (g i) := by
      have := h 0 (by simp)
      simpa using this
    have hrec : ∀ j, j < rest.length → respond (i + 1 + j) = some (g (i + 1 + j)) := by
      intro j hj
      have := h (j + 1) (by simp; omega)
      have he : i + (j + 1) = i + 1 + j := by omega
      rwa [he] at this
    rw [loopA, h0, ih (i + 1) hrec]
    simp only [List.length_cons, List.map_cons, List.range_succ_eq_map,
      List.map_map, List.flatten_cons]
    refine congrArg (LoopOut.mk _ _ · _) ?_
    have hhead : (if i = 0 then g i else jsSliceFrom (g i) HEADER_BYTES)
        = (if i + 0 = 0 then g (i + 0) else jsSliceFrom (g (i + 0)) HEADER_BYTES) := by
      simp
    rw [hhead]
    refine congrArg (_ ++ ·) (congrArg List.flatten ?_)
    apply List.map_congr_left
    intro j hj
    simp only [Function.comp]
    have h1 : i + 1 + j ≠ 0 := by omega
    have h2 : i + Nat.succ j ≠ 0 := by omega
    rw [if_neg h1, if_neg h2]
    have he : i + 1 + j = i + Nat.succ j := by omega
    rw [he]

/-! ## Variant B: WAV header construction (src/tts-gemini.js `saveWav`) -/

/-- Little-endian bytes of `Buffer.writeUInt16LE` (in-range values only are
ever written by the source). -/
def u16le (v : Nat) : List Nat := [v % 256, v / 256 % 256]

/-- Little-endian bytes of `Buffer.writeUInt32LE`.  Node throws for values
`≥ 2^32`; the model wraps instead, and every theorem that depends on the value
keeps it in range. -/
def u32le (v : Nat) : List Nat :=
  [v % 256, v / 256 % 256, v / 65536 % 256, v / 16777216 % 256]

/-- Write `bs` into `buf` starting at offset `off` (`Buffer.write*`). -/
def writeBytesAt (buf : List Nat) : Nat → List Nat → List Nat
  | _, [] => buf
  | off, b :: bs => writeBytesAt (buf.set off b) (off + 1) bs

/-- ASCII bytes of a string literal (`buffer.write(s, off, len, "ascii")`). -/
def asciiBytes (s : String) : List Nat := s.data.map Char.toNat

/-- The 44-byte header built by `saveWav` (src/tts-gemini.js lines 59-77) on a
zero-filled `Buffer.alloc(44)`, with `bytesPerSample = 2` and
`byteRate = sampleRate * bytesPerSample`. -/
def wavHeader (dataSize sampleRate : Nat) : List Nat :=
  let bytesPerSample := 2
  let byteRate := sampleRate * bytesPerSample
  let b0 := List.replicate 44 0
  let b1 := writeBytesAt b0 0 (asciiBytes "RIFF")
  let b2 := writeBytesAt b1 4 (u32le (36 + dataSize))
  let b3 := writeBytesAt b2 8 (asciiBytes "WAVE")
  let b4 := writeBytesAt b3 12 (asciiBytes "fmt ")
  let b5 := writeBytesAt b4 16 (u32le 16)
  let b6 := writeBytesAt b5 20 (u16le 1)
  let b7 := writeBytesAt b6 22 (u16le 1)
  let b8 := writeBytesAt b7 24 (u32le sampleRate)
  let b9 := writeBytesAt b8 28 (u32le byteRate)
  let b10 := writeBytesAt b9 32 (u16le bytesPerSample)
  let b11 := writeBytesAt b10 34 (u16le (8 * bytesPerSample))
  let b12 := writeBytesAt b11 36 (asciiBytes "data")
  writeBytesAt b12 40 (u32le dataSize)

/-- src/tts-gemini.js lines 59-81: the bytes passed to `fs.writeFileSync`,
namely `Buffer.concat([header, pcm])`. -/
def saveWav (pcm : List Nat) (sampleRate : Nat) : List Nat :=
  wavHeader pcm.length sampleRate ++ pcm

/-- `buf.readUInt32LE(off)` on our byte lists. -/
def readUInt32LE (l : List Nat) (off : Nat) : Nat :=
  l.getD off 0 + 256 * l.getD (off + 1) 0 + 65536 * l.getD (off + 2) 0 +
    16777216 * l.getD (off + 3) 0

/-- `buf.readUInt16LE(off)` on our byte lists. -/
def readUInt16LE (l : List Nat) (off : Nat) : Nat :=
  l.getD off 0 + 256 * l.getD (off + 1) 0

theorem writeBytesAt_length (bs : List Nat) :
    ∀ buf off, (writeBytesAt buf off bs).length = buf.length := by
  induction bs with
  | nil => intro buf off; rfl
  | cons b rest ih =>
    intro buf off
    rw [writeBytesAt, ih, List.length_set]

theorem writeBytesAt_getElem_lt (bs : List Nat) :
    ∀ buf off k, k < off → (writeBytesAt buf off bs)[k]? = buf[k]? := by
  induction bs with
  | nil => intro buf off k _; rfl
  | cons b rest ih =>
    intro buf off k hk
    rw [writeBytesAt, ih (buf.set off b) (off + 1) k (by omega),
      List.getElem?_set_ne (by omega)]

theorem writeBytesAt_getElem_ge (bs : List Nat) :
    ∀ buf off k, off + bs.length ≤ k → (writeBytesAt buf off bs)[k]? = buf[k]? := by
  induction bs with
  | nil => intro buf off k _; rfl
  | cons b rest ih =>
    intro buf off k hk
    simp only [List.length_cons] at hk
    rw [writeBytesAt, ih (buf.set off b) (off + 1) k (by omega),
      List.getElem?_set_ne (by omega)]

theorem writeBytesAt_getElem_in (bs : List Nat) :
    ∀ buf off k, off ≤ k → k < off + bs.length → k < buf.length →
      (writeBytesAt buf off bs)[k]? = bs[k - off]? := by
  induction bs with
  | nil => intro buf off k _ h2 _; simp at h2; omega
  | cons b rest ih =>
    intro buf off k h1 h2 h3
    rw [writeBytesAt]
    by_cases hk : k = off
    · subst hk
      rw [writeBytesAt_getElem_lt rest (buf.set k b) (k + 1) k (by omega),
        List.getElem?_set_self (by omega), Nat.sub_self, List.getElem?_cons_zero]
    · have h1' : off + 1 ≤ k := by omega
      rw [ih (buf.set off b) (off + 1) k h1' (by simp only [List.length_cons] at h2; omega)
        (by rw [List.length_set]; omega)]
      have he : k - off = (k - (off + 1)) + 1 := by omega
      rw [he, List.getElem?_cons_succ]

theorem writeBytesAt_getElem_lt' (bs buf : List Nat) (off k : Nat) (hk : k < off)
    (h1 : k < (writeBytesAt buf off bs).length) (h2 : k < buf.length) :
    (writeBytesAt buf off bs)[k] = buf[k] := by
  have h := writeBytesAt_getElem_lt bs buf off k hk
  rw [List.getElem?_eq_getElem h1, List.getElem?_eq_getElem h2] at h
  exact Option.some.inj h

theorem writeBytesAt_getElem_ge' (bs buf : List Nat) (off k : Nat) (hk : off + bs.length ≤ k)
    (h1 : k < (writeBytesAt buf off bs).length) (h2 : k < buf.length) :
    (writeBytesAt buf off bs)[k] = buf[k] := by
  have h := writeBytesAt_getElem_ge bs buf off k hk
  rw [List.getElem?_eq_getElem h1, List.getElem?_eq_getElem h2] at h
  exact Option.some.inj h

theorem writeBytesAt_getElem_in' (bs buf : List Nat) (off k : Nat) (ha : off ≤ k)
    (hb : k < off + bs.length) (h2 : k < buf.length)
    (h1 : k < (writeBytesAt buf off bs).length) (h3 : k - off < bs.length) :
    (writeBytesAt buf off bs)[k] = bs[k - off] := by
  have h := writeBytesAt_getElem_in bs buf off k ha hb h2
  rw [List.getElem?_eq_getElem h1, List.getElem?_eq_getElem h3] at h
  exact Option.some.inj h

/-! ## Variant B whole program (src/tts-gemini.js) -/

/-- Process state visible to src/tts-gemini.js. -/
structure EnvB where
  GEMINI_API_KEY : Option String
  GEMINI_TTS_MODEL : Option String
  GEMINI_VOICE : Option String
  GEMINI_STYLE : Option String
  argvIn : Option String
  argvOut : Option String
  inFileExists : Bool
  inFileContent : List Char
  deriving Repr

/-- Outcome of the single `ai.models.generateContent` call:
the promise rejects (`throwErr`), the structured reply lacks the nested
`candidates[0].content.parts[0].inlineData.data` base64 payload (`noAudio`),
or it carries a payload whose decoded bytes are `pcm` (`audio`).  Base64
decoding itself is not modelled; the oracle yields the decoded bytes. -/
inductive RespB where
  | throwErr
  | noAudio
  | audio (pcm : List Nat)

/-- Outcome of the `fs.writeFileSync` in `saveWav`: success, or a throw after
the first `k` bytes have reached the disk. -/
inductive WriteOutcome where
  | ok
  | failAfter (k : Nat)

/-- Observable outcome of a run of src/tts-gemini.js.  `outputFile` is the
content of the output path when the process exits; `requestText`,
`requestModel`, `requestVoice` record the request that was sent (if any). -/
structure ResultB where
  exitCode : Nat
  errMsg : Option String
  networkCalls : Nat
  outputFile : Option (List Nat)
  inputRead : Bool
  requestText : Option (List Char)
  requestModel : Option String
  requestVoice : Option String
  deriving DecidableEq, Repr

/-- The default style directive (src/tts-gemini.js lines 31-33). -/
def defaultStyleB : String :=
  "Neutral storyteller with a mild British accent and a very slight dramatic tone"

/-- src/tts-gemini.js top-to-bottom: key check (lines 23-27), argv check
(lines 36-40), existence check (lines 44-47), read + trim + empty check
(lines 49-53), style prefixing (line 56), one `generateContent` call, the
base64-payload check (lines 101-106), `saveWav` (line 109), and the final
`.catch` (lines 112-115) which exits 1 without touching the output file. -/
def mainB (env : EnvB) (resp : RespB) (w : WriteOutcome) : ResultB :=
  if truthy env.GEMINI_API_KEY then
    if truthy env.argvIn && truthy env.argvOut then
      if env.inFileExists then
        let rawText := jsTrim env.inFileContent
        if rawText = [] then
          ⟨1, some "ERROR: input file is empty", 0, none, true, none, none, none⟩
        else
          let text := (envOr env.GEMINI_STYLE defaultStyleB).data ++ ':' :: '\n' :: rawText
          let model := envOr env.GEMINI_TTS_MODEL "gemini-2.5-flash-preview-tts"
          let voice := envOr env.GEMINI_VOICE "Iapetus"
          match resp with
          | RespB.throwErr =>
            ⟨1, some "Generation failed:", 1, none, true, some text, some model, some voice⟩
          | RespB.noAudio =>
            ⟨1, some "ERROR: no audio returned – check model & voice names", 1, none, true,
              some text, some model, some voice⟩
          | RespB.audio pcm =>
            let file := saveWav pcm 24000
            match w with
            | WriteOutcome.ok =>
              ⟨0, none, 1, some file, true, some text, some model, some voice⟩
            | WriteOutcome.failAfter k =>
              ⟨1, some "Generation failed:", 1, some (file.take k), true,
                some text, some model, some voice⟩
      else ⟨1, some "ERROR: input file not found", 0, none, false, none, none, none⟩
    else ⟨1, some "Usage: node src/tts-gemini.js <input.txt> <output.wav>", 0, none, false,
      none, none, none⟩
  else ⟨1, some "ERROR: GEMINI_API_KEY missing in .env", 0, none, false, none, none, none⟩

/-! ## Derived facts about the assembly loop at index 0 -/

theorem loopA_ok_zero (mk : List Char → TtsParams) (respond : Nat → Option (List Nat))
    (g : Nat → List Nat) (c : List Char) (rest : List (List Char))
    (h : ∀ j, j < (c :: rest).length → respond j = some (g j)) :
    loopA mk respond 0 (c :: rest) =
      ⟨rest.length + 1, (c :: rest).map mk,
       g 0 ++ ((List.range rest.length).map
         (fun j => jsSliceFrom (g (j + 1)) HEADER_BYTES)).flatten,
       false⟩ := by
  have h' : ∀ j, j < (c :: rest).length → respond (0 + j) = some (g (0 + j)) := by
    intro j hj
    simpa using h j hj
  rw [loopA_ok mk respond g (c :: rest) 0 h']
  refine congrArg (LoopOut.mk _ _ · _) ?_
  simp only [List.length_cons, List.range_succ_eq_map, List.map_cons, List.map_map,
    List.flatten_cons, Nat.zero_add, reduceIte]
  refine congrArg (_ ++ ·) (congrArg List.flatten ?_)
  apply List.map_congr_left
  intro j _
  simp [Function.comp]

theorem loopA_written_zero (mk : List Char → TtsParams) (respond : Nat → Option (List Nat))
    (g : Nat → List Nat) (c : List Char) (rest : List (List Char))
    (h : ∀ j, j < (c :: rest).length → respond j = some (g j)) :
    (loopA mk respond 0 (c :: rest)).written =
      g 0 ++ ((List.range rest.length).map
        (fun j => jsSliceFrom (g (j + 1)) HEADER_BYTES)).flatten := by
  rw [loopA_ok_zero mk respond g c rest h]

theorem loopA_written_zero_length (mk : List Char → TtsParams)
    (respond : Nat → Option (List Nat)) (g : Nat → List Nat) (c : List Char)
    (rest : List (List Char))
    (h : ∀ j, j < (c :: rest).length → respond j = some (g j)) :
    (loopA mk respond 0 (c :: rest)).written.length =
      (g 0).length + ((List.range rest.length).map
        (fun j => (g (j + 1)).length - HEADER_BYTES)).sum := by
  rw [loopA_written_zero mk respond g c rest h, List.length_append, List.length_flatten,
    List.map_map]
  congr 1
  apply congrArg List.sum
  apply List.map_congr_left
  intro j _
  simp [jsSliceFrom]

theorem readUInt32LE_append (l l' : List Nat) (k : Nat) (h : k + 3 < l.length) :
    readUInt32LE (l ++ l') k = readUInt32LE l k := by
  unfold readUInt32LE
  rw [List.getD_append _ _ _ _ (by omega), List.getD_append _ _ _ _ (by omega),
    List.getD_append _ _ _ _ (by omega), List.getD_append _ _ _ _ (by omega)]

/-! ## Concrete fixtures used by witnesses and counterexamples -/

/-- A fixed request builder (the loop treats it opaquely). -/
def mkTrivial : List Char → TtsParams :=
  fun c => ⟨"tts-1-hd", c, "wav", some "fable", some (some 1), none⟩

/-- A valid 45-byte audio container: 44-byte header whose data-size field is 1,
followed by a single payload byte. -/
def r0 : List Nat := saveWav [170] 24000

/-- An oracle returning the same valid container for every call. -/
def respondR0 : Nat → Option (List Nat) := fun _ => some r0

/-- Per-call responses with lengths 44+100 and 44+50. -/
def gExample : Nat → List Nat :=
  fun j => if j = 0 then List.replicate 144 7 else List.replicate 94 8

def respondExample : Nat → Option (List Nat) := fun j => some (gExample j)

/-- Oracle whose second response is shorter than one header. -/
def respondShort : Nat → Option (List Nat) :=
  fun j => if j = 0 then some r0 else some [1, 2, 3]

/-! ## Claim theorems -/

/-- C5 (amended: for every *nonempty* input text; on the empty text the loop
body never runs and the chunk list is empty, not `[empty]`): if
`L ≤ 8000` the chunker yields exactly one chunk equal to the input; in
general it yields `⌈L/8000⌉` chunks, every chunk except possibly the last has
length exactly 8000, every chunk has length at most 8000, and concatenating
the chunks in order reproduces the input exactly. -/
theorem chunker_spec (text : List Char) (h : text ≠ []) :
    (text.length ≤ CHUNK_LEN → chunksJs text = [text])
    ∧ (chunksJs text).length = (text.length + (CHUNK_LEN - 1)) / CHUNK_LEN
    ∧ (∀ j, j + 1 < (chunksJs text).length → ((chunksJs text).getD j []).length = CHUNK_LEN)
    ∧ (∀ c ∈ chunksJs text, c.length ≤ CHUNK_LEN)
    ∧ (chunksJs text).flatten = text := by
  refine ⟨?_, chunksJs_length text, ?_, ?_, chunksJs_flatten text⟩
  · intro hle
    have hpos : 0 < text.length := List.length_pos.mpr h
    have h1 : (chunksJs text).length = 1 := by
      rw [chunksJs_length]
      simp only [CHUNK_LEN] at hle ⊢
      omega
    obtain ⟨c, hc⟩ := List.length_eq_one.mp h1
    have hflat := chunksJs_flatten text
    rw [hc] at hflat ⊢
    simp only [List.flatten_cons, List.flatten_nil, List.append_nil] at hflat
    rw [hflat]
  · exact chunksGo_full text text.length 0
  · exact chunksGo_chunk_le text text.length 0

/-- C5 witness: the amended theorem applied to the two-character text `hi`. -/
theorem chunker_spec_witness :
    (['h', 'i'] : List Char) ≠ [] ∧
    (((['h', 'i'] : List Char).length ≤ CHUNK_LEN → chunksJs ['h', 'i'] = [['h', 'i']])
     ∧ (chunksJs ['h', 'i']).length =
         ((['h', 'i'] : List Char).length + (CHUNK_LEN - 1)) / CHUNK_LEN
     ∧ (∀ j, j + 1 < (chunksJs ['h', 'i']).length →
         ((chunksJs ['h', 'i']).getD j []).length = CHUNK_LEN)
     ∧ (∀ c ∈ chunksJs ['h', 'i'], c.length ≤ CHUNK_LEN)
     ∧ (chunksJs ['h', 'i']).flatten = ['h', 'i']) :=
  ⟨by decide, chunker_spec ['h', 'i'] (by decide)⟩

/-- C5 counterexample: on the empty text the chunker yields zero chunks, not
one chunk equal to the input, so the claim fails at `L = 0 ≤ 8000`. -/
theorem chunker_empty_cex :
    chunksJs [] = [] ∧ chunksJs [] ≠ [([] : List Char)] := by
  refine ⟨by decide, by decide⟩

/-- C2: for every sequence of `N ≥ 1` responses the bytes written are exactly
response 1 in full followed, for each response `i > 1` in order, by that
response's bytes after offset `HEADER_BYTES = 44`; consequently the total
length is `|r1|` plus the sum of the later lengths each less 44. -/
theorem assembly_bytes_spec (mk : List Char → TtsParams)
    (respond : Nat → Option (List Nat)) (g : Nat → List Nat) (c : List Char)
    (rest : List (List Char))
    (h : ∀ j, j < (c :: rest).length → respond j = some (g j)) :
    (loopA mk respond 0 (c :: rest)).written =
      g 0 ++ ((List.range rest.length).map
        (fun j => jsSliceFrom (g (j + 1)) HEADER_BYTES)).flatten
    ∧ (loopA mk respond 0 (c :: rest)).written.length =
      (g 0).length + ((List.range rest.length).map
        (fun j => (g (j + 1)).length - HEADER_BYTES)).sum :=
  ⟨loopA_written_zero mk respond g c rest h,
   loopA_written_zero_length mk respond g c rest h⟩

set_option maxRecDepth 4000 in
/-- C2 witness: two responses of 44+100 and 44+50 bytes; the assembled output
is response 1 plus the 50 trailing bytes of response 2 (length 194). -/
theorem assembly_bytes_spec_witness :
    (∀ j, j < ([['a'], ['b']] : List (List Char)).length →
      respondExample j = some (gExample j)) ∧
    ((loopA mkTrivial respondExample 0 [['a'], ['b']]).written =
      gExample 0 ++ ((List.range 1).map
        (fun j => jsSliceFrom (gExample (j + 1)) HEADER_BYTES)).flatten
     ∧ (loopA mkTrivial respondExample 0 [['a'], ['b']]).written.length =
      (gExample 0).length + ((List.range 1).map
        (fun j => (gExample (j + 1)).length - HEADER_BYTES)).sum) :=
  ⟨fun _ _ => rfl,
   assembly_bytes_spec mkTrivial respondExample gExample ['a'] [['b']] (fun _ _ => rfl)⟩

/-- C1 (amended): the assembly loop copies response 1's header verbatim and
never updates it, so the data-size field (offset 40) and the total-size field
(offset 4) of the assembled output are exactly those declared by response 1's
header — not the sum of all payload lengths; the actual payload of the
assembled output is `(|r1| - 44) + Σ_{i>1} (|ri| - 44)` bytes.  The claimed
equality with the sum therefore holds only when response 1's declared fields
already equal that sum (e.g. when `N = 1` and response 1 is valid). -/
theorem assembled_header_fields (mk : List Char → TtsParams)
    (respond : Nat → Option (List Nat)) (g : Nat → List Nat) (c : List Char)
    (rest : List (List Char))
    (h : ∀ j, j < (c :: rest).length → respond j = some (g j))
    (hlen : HEADER_BYTES ≤ (g 0).length) :
    readUInt32LE (loopA mk respond 0 (c :: rest)).written 40 = readUInt32LE (g 0) 40
    ∧ readUInt32LE (loopA mk respond 0 (c :: rest)).written 4 = readUInt32LE (g 0) 4
    ∧ (loopA mk respond 0 (c :: rest)).written.length =
        HEADER_BYTES + (((g 0).length - HEADER_BYTES)
          + ((List.range rest.length).map
              (fun j => (g (j + 1)).length - HEADER_BYTES)).sum) := by
  simp only [HEADER_BYTES] at hlen
  refine ⟨?_, ?_, ?_⟩
  · rw [loopA_written_zero mk respond g c rest h,
      readUInt32LE_append _ _ 40 (by omega)]
  · rw [loopA_written_zero mk respond g c rest h,
      readUInt32LE_append _ _ 4 (by omega)]
  · rw [loopA_written_zero_length mk respond g c rest h]
    simp only [HEADER_BYTES]
    omega

/-- C1 counterexample: two identical, individually valid 45-byte responses
(header declaring data-size 1, one payload byte).  The assembled output's
data-size field is still 1, not the payload sum 2, so the claim fails at
`N = 2` and the assembled container is not valid. -/
theorem datasize_not_sum_cex :
    readUInt32LE r0 40 = (jsSliceFrom r0 HEADER_BYTES).length
    ∧ readUInt32LE ((loopA mkTrivial respondR0 0 [['a'], ['b']]).written) 40 = 1
    ∧ (jsSliceFrom r0 HEADER_BYTES).length + (jsSliceFrom r0 HEADER_BYTES).length = 2
    ∧ readUInt32LE ((loopA mkTrivial respondR0 0 [['a'], ['b']]).written) 40 ≠
        (jsSliceFrom r0 HEADER_BYTES).length + (jsSliceFrom r0 HEADER_BYTES).length := by
  refine ⟨by decide, by decide, by decide, by decide⟩

/-- C1 witness: the amended theorem applied to the two-response run of the
counterexample. -/
theorem assembled_header_fields_witness :
    ((∀ j, j < ([['a'], ['b']] : List (List Char)).length →
        respondR0 j = some r0)
     ∧ HEADER_BYTES ≤ r0.length) ∧
    (readUInt32LE (loopA mkTrivial respondR0 0 [['a'], ['b']]).written 40 =
        readUInt32LE r0 40
     ∧ readUInt32LE (loopA mkTrivial respondR0 0 [['a'], ['b']]).written 4 =
        readUInt32LE r0 4
     ∧ (loopA mkTrivial respondR0 0 [['a'], ['b']]).written.length =
        HEADER_BYTES + ((r0.length - HEADER_BYTES)
          + ((List.range 1).map (fun _ => r0.length - HEADER_BYTES)).sum)) :=
  ⟨⟨fun _ _ => rfl, by decide⟩,
   assembled_header_fields mkTrivial respondR0 (fun _ => r0) ['a'] [['b']]
     (fun _ _ => rfl) (by decide)⟩

/-- C9: slicing the 44-byte header off a buffer shorter than 44 bytes yields
the empty byte sequence (JS `slice` clamps, it never throws), so a short
non-first response contributes zero bytes and the assembly loop still
succeeds. -/
theorem short_response_spec (mk : List Char → TtsParams)
    (respond : Nat → Option (List Nat)) (c1 c2 : List Char) (r b : List Nat)
    (h0 : respond 0 = some r) (h1 : respond 1 = some b)
    (hb : b.length < HEADER_BYTES) :
    jsSliceFrom b HEADER_BYTES = []
    ∧ (loopA mk respond 0 [c1, c2]).written = r
    ∧ (loopA mk respond 0 [c1, c2]).failed = false := by
  have hnil : jsSliceFrom b HEADER_BYTES = [] := by
    rw [jsSliceFrom]
    exact List.drop_eq_nil_of_le (by omega)
  refine ⟨hnil, ?_, ?_⟩ <;> simp [loopA, h0, h1, hnil]

/-- C9 witness: a second response of only 3 bytes; the assembled output is
exactly the first response and the loop does not fail. -/
theorem short_response_spec_witness :
    (respondShort 0 = some r0 ∧ respondShort 1 = some [1, 2, 3]
     ∧ ([1, 2, 3] : List Nat).length < HEADER_BYTES) ∧
    (jsSliceFrom [1, 2, 3] HEADER_BYTES = []
     ∧ (loopA mkTrivial respondShort 0 [['a'], ['b']]).written = r0
     ∧ (loopA mkTrivial respondShort 0 [['a'], ['b']]).failed = false) :=
  ⟨⟨rfl, rfl, by decide⟩,
   short_response_spec mkTrivial respondShort ['a'] ['b'] r0 [1, 2, 3] rfl rfl (by decide)⟩

/-- C4: for a raw PCM payload of length `D` (with `36 + D` in `UInt32` range,
as `writeUInt32LE` requires), the file written by variant B is exactly
`44 + D` bytes: the RIFF/WAVE tags, RIFF chunk-size `36 + D`, fmt-chunk size
16, PCM format tag 1, 1 channel, sample rate 24000 Hz, byte rate 48000,
block align 2, 16 bits per sample, data-size `D`, followed by the payload
unchanged.  `1179011410`, `1163280727`, `544501094` and `1635017060` are the
little-endian 32-bit readings of the ASCII tags `RIFF`, `WAVE`, `fmt ` and
`data`. -/
theorem saveWav_spec (pcm : List Nat) (h : 36 + pcm.length < 4294967296) :
    (saveWav pcm 24000).length = 44 + pcm.length
    ∧ (saveWav pcm 24000).drop 44 = pcm
    ∧ readUInt32LE (saveWav pcm 24000) 0 = 1179011410
    ∧ readUInt32LE (saveWav pcm 24000) 4 = 36 + pcm.length
    ∧ readUInt32LE (saveWav pcm 24000) 8 = 1163280727
    ∧ readUInt32LE (saveWav pcm 24000) 12 = 544501094
    ∧ readUInt32LE (saveWav pcm 24000) 16 = 16
    ∧ readUInt16LE (saveWav pcm 24000) 20 = 1
    ∧ readUInt16LE (saveWav pcm 24000) 22 = 1
    ∧ readUInt32LE (saveWav pcm 24000) 24 = 24000
    ∧ readUInt32LE (saveWav pcm 24000) 28 = 48000
    ∧ readUInt16LE (saveWav pcm 24000) 32 = 2
    ∧ readUInt16LE (saveWav pcm 24000) 34 = 16
    ∧ readUInt32LE (saveWav pcm 24000) 36 = 1635017060
    ∧ readUInt32LE (saveWav pcm 24000) 40 = pcm.length := by
  refine ⟨?_, ?_, ?_, ?_, ?_, ?_, ?_, ?_, ?_, ?_, ?_, ?_, ?_, ?_, ?_⟩
  · simp [saveWav, wavHeader, writeBytesAt_length]
  · have h44 : (wavHeader pcm.length 24000).length = 44 := by
      simp [wavHeader, writeBytesAt_length]
    rw [saveWav, ← h44, List.drop_left]
  · simp [saveWav, wavHeader, readUInt32LE, u32le, u16le, asciiBytes,
      writeBytesAt_getElem_lt', writeBytesAt_getElem_ge', writeBytesAt_getElem_in',
      writeBytesAt_length, List.getElem?_append_left, List.getElem_append_left]
  · have e : readUInt32LE (saveWav pcm 24000) 4 =
        (36 + pcm.length) % 256 + 256 * ((36 + pcm.length) / 256 % 256) +
        65536 * ((36 + pcm.length) / 65536 % 256) +
        16777216 * ((36 + pcm.length) / 16777216 % 256) := by
      simp [saveWav, wavHeader, readUInt32LE, u32le, u16le, asciiBytes,
        writeBytesAt_getElem_lt', writeBytesAt_getElem_ge', writeBytesAt_getElem_in',
        writeBytesAt_length, List.getElem?_append_left, List.getElem_append_left]
    rw [e]
    omega
  · simp [saveWav, wavHeader, readUInt32LE, u32le, u16le, asciiBytes,
      writeBytesAt_getElem_lt', writeBytesAt_getElem_ge', writeBytesAt_getElem_in',
      writeBytesAt_length, List.getElem?_append_left, List.getElem_append_left]
  · simp [saveWav, wavHeader, readUInt32LE, u32le, u16le, asciiBytes,
      writeBytesAt_getElem_lt', writeBytesAt_getElem_ge', writeBytesAt_getElem_in',
      writeBytesAt_length, List.getElem?_append_left, List.getElem_append_left]
  · simp [saveWav, wavHeader, readUInt32LE, u32le, u16le, asciiBytes,
      writeBytesAt_getElem_lt', writeBytesAt_getElem_ge', writeBytesAt_getElem_in',
      writeBytesAt_length, List.getElem?_append_left, List.getElem_append_left]
  · simp [saveWav, wavHeader, readUInt16LE, u32le, u16le, asciiBytes,
      writeBytesAt_getElem_lt', writeBytesAt_getElem_ge', writeBytesAt_getElem_in',
      writeBytesAt_length, List.getElem?_append_left, List.getElem_append_left]
  · simp [saveWav, wavHeader, readUInt16LE, u32le, u16le, asciiBytes,
      writeBytesAt_getElem_lt', writeBytesAt_getElem_ge', writeBytesAt_getElem_in',
      writeBytesAt_length, List.getElem?_append_left, List.getElem_append_left]
  · simp [saveWav, wavHeader, readUInt32LE, u32le, u16le, asciiBytes,
      writeBytesAt_getElem_lt', writeBytesAt_getElem_ge', writeBytesAt_getElem_in',
      writeBytesAt_length, List.getElem?_append_left, List.getElem_append_left]
  · simp [saveWav, wavHeader, readUInt32LE, u32le, u16le, asciiBytes,
      writeBytesAt_getElem_lt', writeBytesAt_getElem_ge', writeBytesAt_getElem_in',
      writeBytesAt_length, List.getElem?_append_left, List.getElem_append_left]
  · simp [saveWav, wavHeader, readUInt16LE, u32le, u16le, asciiBytes,
      writeBytesAt_getElem_lt', writeBytesAt_getElem_ge', writeBytesAt_getElem_in',
      writeBytesAt_length, List.getElem?_append_left, List.getElem_append_left]
  · simp [saveWav, wavHeader, readUInt16LE, u32le, u16le, asciiBytes,
      writeBytesAt_getElem_lt', writeBytesAt_getElem_ge', writeBytesAt_getElem_in',
      writeBytesAt_length, List.getElem?_append_left, List.getElem_append_left]
  · simp [saveWav, wavHeader, readUInt32LE, u32le, u16le, asciiBytes,
      writeBytesAt_getElem_lt', writeBytesAt_getElem_ge', writeBytesAt_getElem_in',
      writeBytesAt_length, List.getElem?_append_left, List.getElem_append_left]
  · have e : readUInt32LE (saveWav pcm 24000) 40 =
        pcm.length % 256 + 256 * (pcm.length / 256 % 256) +
        65536 * (pcm.length / 65536 % 256) + 16777216 * (pcm.length / 16777216 % 256) := by
      simp [saveWav, wavHeader, readUInt32LE, u32le, u16le, asciiBytes,
        writeBytesAt_getElem_lt', writeBytesAt_getElem_ge', writeBytesAt_getElem_in',
        writeBytesAt_length, List.getElem?_append_left, List.getElem_append_left]
    rw [e]
    omega

/-- C4 witness: the theorem applied to the 4-byte payload `[1, 2, 3, 4]`. -/
theorem saveWav_spec_witness :
    36 + ([1, 2, 3, 4] : List Nat).length < 4294967296 ∧
    ((saveWav [1, 2, 3, 4] 24000).length = 44 + ([1, 2, 3, 4] : List Nat).length
     ∧ (saveWav [1, 2, 3, 4] 24000).drop 44 = [1, 2, 3, 4]
     ∧ readUInt32LE (saveWav [1, 2, 3, 4] 24000) 0 = 1179011410
     ∧ readUInt32LE (saveWav [1, 2, 3, 4] 24000) 4 = 36 + ([1, 2, 3, 4] : List Nat).length
     ∧ readUInt32LE (saveWav [1, 2, 3, 4] 24000) 8 = 1163280727
     ∧ readUInt32LE (saveWav [1, 2, 3, 4] 24000) 12 = 544501094
     ∧ readUInt32LE (saveWav [1, 2, 3, 4] 24000) 16 = 16
     ∧ readUInt16LE (saveWav [1, 2, 3, 4] 24000) 20 = 1
     ∧ readUInt16LE (saveWav [1, 2, 3, 4] 24000) 22 = 1
     ∧ readUInt32LE (saveWav [1, 2, 3, 4] 24000) 24 = 24000
     ∧ readUInt32LE (saveWav [1, 2, 3, 4] 24000) 28 = 48000
     ∧ readUInt16LE (saveWav [1, 2, 3, 4] 24000) 32 = 2
     ∧ readUInt16LE (saveWav [1, 2, 3, 4] 24000) 34 = 16
     ∧ readUInt32LE (saveWav [1, 2, 3, 4] 24000) 36 = 1635017060
     ∧ readUInt32LE (saveWav [1, 2, 3, 4] 24000) 40 = ([1, 2, 3, 4] : List Nat).length) :=
  ⟨by decide, saveWav_spec [1, 2, 3, 4] (by decide)⟩

/-! ## Environment fixtures -/

/-- A valid variant-A environment: credential set, every configuration
variable unset, both arguments given, input file present with content `hi`. -/
def envA0 : EnvA :=
  ⟨some "k", none, none, none, none, some "in.txt", some "out.wav", true, ['h', 'i']⟩

/-- Variant-A environment whose input file holds only whitespace. -/
def envAWs : EnvA := { envA0 with inFileContent := [' ', '\n'] }

/-- Variant-A environment with the credential unset. -/
def envANoKey : EnvA := { envA0 with OPENAI_API_KEY := none }

/-- A valid variant-B environment, mirror of `envA0`. -/
def envB0 : EnvB :=
  ⟨some "k", none, none, none, some "in.txt", some "out.wav", true, ['h', 'i']⟩

/-- Variant-B environment whose input file holds only whitespace. -/
def envBWs : EnvB := { envB0 with inFileContent := [' ', '\n'] }

/-- Variant-B environment with the credential unset. -/
def envBNoKey : EnvB := { envB0 with GEMINI_API_KEY := none }

/-- C6: when the trimmed input is empty (in particular for whitespace-only
files) each program prints the empty-input error and exits 1 with zero
synthesis calls and no output file; and trimming any all-whitespace text
does yield the empty text. -/
theorem empty_input_spec (ea : EnvA) (respond : Nat → Option (List Nat))
    (eb : EnvB) (resp : RespB) (w : WriteOutcome)
    (ha1 : truthy ea.OPENAI_API_KEY = true) (ha2 : truthy ea.argvIn = true)
    (ha3 : truthy ea.argvOut = true) (ha4 : ea.inFileExists = true)
    (ha5 : jsTrim ea.inFileContent = [])
    (hb1 : truthy eb.GEMINI_API_KEY = true) (hb2 : truthy eb.argvIn = true)
    (hb3 : truthy eb.argvOut = true) (hb4 : eb.inFileExists = true)
    (hb5 : jsTrim eb.inFileContent = []) :
    mainA ea respond = ⟨1, some "ERROR: input file is empty", 0, none, true, []⟩
    ∧ mainB eb resp w = ⟨1, some "ERROR: input file is empty", 0, none, true, none, none, none⟩
    ∧ (∀ l : List Char, (∀ x ∈ l, isJsWs x = true) → jsTrim l = []) := by
  refine ⟨?_, ?_, ?_⟩
  · simp [mainA, ha1, ha2, ha3, ha4, ha5]
  · simp [mainB, hb1, hb2, hb3, hb4, hb5]
  · intro l hl
    rw [jsTrim, List.dropWhile_eq_nil_iff.mpr hl]
    rfl

/-- C6 witness: the theorem applied to environments whose input file contains
a space and a newline. -/
theorem empty_input_spec_witness :
    (truthy envAWs.OPENAI_API_KEY = true ∧ truthy envAWs.argvIn = true
     ∧ truthy envAWs.argvOut = true ∧ envAWs.inFileExists = true
     ∧ jsTrim envAWs.inFileContent = []
     ∧ truthy envBWs.GEMINI_API_KEY = true ∧ truthy envBWs.argvIn = true
     ∧ truthy envBWs.argvOut = true ∧ envBWs.inFileExists = true
     ∧ jsTrim envBWs.inFileContent = []) ∧
    (mainA envAWs respondR0 = ⟨1, some "ERROR: input file is empty", 0, none, true, []⟩
     ∧ mainB envBWs RespB.throwErr WriteOutcome.ok =
        ⟨1, some "ERROR: input file is empty", 0, none, true, none, none, none⟩
     ∧ (∀ l : List Char, (∀ x ∈ l, isJsWs x = true) → jsTrim l = [])) :=
  ⟨⟨by decide, by decide, by decide, by decide, by decide,
    by decide, by decide, by decide, by decide, by decide⟩,
   empty_input_spec envAWs respondR0 envBWs RespB.throwErr WriteOutcome.ok
     (by decide) (by decide) (by decide) (by decide) (by decide)
     (by decide) (by decide) (by decide) (by decide) (by decide)⟩

/-- C7: when the structured Gemini reply lacks the nested base64 audio
payload the program exits 1 with the dedicated no-audio message, writes no
output file, after exactly one network call; the message differs from the one
printed on a thrown network error, so the two failure paths are distinct. -/
theorem noaudio_spec (eb : EnvB) (w wAlt : WriteOutcome)
    (h1 : truthy eb.GEMINI_API_KEY = true) (h2 : truthy eb.argvIn = true)
    (h3 : truthy eb.argvOut = true) (h4 : eb.inFileExists = true)
    (h5 : jsTrim eb.inFileContent ≠ []) :
    (mainB eb RespB.noAudio w).exitCode = 1
    ∧ (mainB eb RespB.noAudio w).outputFile = none
    ∧ (mainB eb RespB.noAudio w).errMsg =
        some "ERROR: no audio returned – check model & voice names"
    ∧ (mainB eb RespB.noAudio w).networkCalls = 1
    ∧ (mainB eb RespB.noAudio w).errMsg ≠ (mainB eb RespB.throwErr wAlt).errMsg := by
  refine ⟨?_, ?_, ?_, ?_, ?_⟩ <;> simp [mainB, h1, h2, h3, h4, h5]

/-- C7 witness: the theorem applied to the valid variant-B environment. -/
theorem noaudio_spec_witness :
    (truthy envB0.GEMINI_API_KEY = true ∧ truthy envB0.argvIn = true
     ∧ truthy envB0.argvOut = true ∧ envB0.inFileExists = true
     ∧ jsTrim envB0.inFileContent ≠ []) ∧
    ((mainB envB0 RespB.noAudio WriteOutcome.ok).exitCode = 1
     ∧ (mainB envB0 RespB.noAudio WriteOutcome.ok).outputFile = none
     ∧ (mainB envB0 RespB.noAudio WriteOutcome.ok).errMsg =
        some "ERROR: no audio returned – check model & voice names"
     ∧ (mainB envB0 RespB.noAudio WriteOutcome.ok).networkCalls = 1
     ∧ (mainB envB0 RespB.noAudio WriteOutcome.ok).errMsg ≠
        (mainB envB0 RespB.throwErr WriteOutcome.ok).errMsg) :=
  ⟨⟨by decide, by decide, by decide, by decide, by decide⟩,
   noaudio_spec envB0 WriteOutcome.ok WriteOutcome.ok
     (by decide) (by decide) (by decide) (by decide) (by decide)⟩

/-- C8: with the credential variable absent each program prints the
missing-credential error and exits 1 before reading the input, making any
network call or creating an output file; every other configuration variable
absent falls back to its documented default (`tts-1-hd`, `fable`, speed
`parseFloat("1.0") = 1`, and for variant B `gemini-2.5-flash-preview-tts`,
`Iapetus`, the default style directive), and a run with only the credential
set still succeeds. -/
theorem missing_credential_spec (ea : EnvA) (respond : Nat → Option (List Nat))
    (eb : EnvB) (resp : RespB) (w : WriteOutcome)
    (ha : ea.OPENAI_API_KEY = none) (hb : eb.GEMINI_API_KEY = none) :
    mainA ea respond = ⟨1, some "ERROR: OPENAI_API_KEY missing in .env", 0, none, false, []⟩
    ∧ mainB eb resp w =
        ⟨1, some "ERROR: GEMINI_API_KEY missing in .env", 0, none, false, none, none, none⟩
    ∧ (∀ chunk, buildParamsA none none none none chunk =
        ⟨"tts-1-hd", chunk, "wav", some "fable", some (jsParseFloat "1.0"), none⟩)
    ∧ jsParseFloat "1.0" = some 1
    ∧ (mainB envB0 (RespB.audio [1, 2]) WriteOutcome.ok).exitCode = 0
    ∧ (mainB envB0 (RespB.audio [1, 2]) WriteOutcome.ok).requestModel =
        some "gemini-2.5-flash-preview-tts"
    ∧ (mainB envB0 (RespB.audio [1, 2]) WriteOutcome.ok).requestVoice = some "Iapetus"
    ∧ (mainB envB0 (RespB.audio [1, 2]) WriteOutcome.ok).requestText =
        some (defaultStyleB.data ++ ':' :: '\n' :: jsTrim envB0.inFileContent) := by
  refine ⟨?_, ?_, ?_, ?_, ?_, ?_, ?_, ?_⟩
  · simp [mainA, ha, truthy]
  · simp [mainB, hb, truthy]
  · intro chunk
    rfl
  · have h : jsParseFloat "1.0" =
        some ((1 : ℚ) * ((natOfDigits [1] : ℚ)
          + (natOfDigits [0] : ℚ) / 10 ^ ([0] : List Nat).length) * (10 : ℚ) ^ (0 : ℤ)) := rfl
    rw [h]
    norm_num [natOfDigits]
  · decide
  · decide
  · decide
  · decide

/-- C8 witness: the theorem applied to the no-credential environments. -/
theorem missing_credential_spec_witness :
    (envANoKey.OPENAI_API_KEY = none ∧ envBNoKey.GEMINI_API_KEY = none) ∧
    (mainA envANoKey respondR0 =
        ⟨1, some "ERROR: OPENAI_API_KEY missing in .env", 0, none, false, []⟩
     ∧ mainB envBNoKey RespB.noAudio WriteOutcome.ok =
        ⟨1, some "ERROR: GEMINI_API_KEY missing in .env", 0, none, false, none, none, none⟩
     ∧ (∀ chunk, buildParamsA none none none none chunk =
        ⟨"tts-1-hd", chunk, "wav", some "fable", some (jsParseFloat "1.0"), none⟩)
     ∧ jsParseFloat "1.0" = some 1
     ∧ (mainB envB0 (RespB.audio [1, 2]) WriteOutcome.ok).exitCode = 0
     ∧ (mainB envB0 (RespB.audio [1, 2]) WriteOutcome.ok).requestModel =
        some "gemini-2.5-flash-preview-tts"
     ∧ (mainB envB0 (RespB.audio [1, 2]) WriteOutcome.ok).requestVoice = some "Iapetus"
     ∧ (mainB envB0 (RespB.audio [1, 2]) WriteOutcome.ok).requestText =
        some (defaultStyleB.data ++ ':' :: '\n' :: jsTrim envB0.inFileContent)) :=
  ⟨⟨rfl, rfl⟩,
   missing_credential_spec envANoKey respondR0 envBNoKey RespB.noAudio WriteOutcome.ok
     rfl rfl⟩

/-- Variant-A environment like `envA0` but with the speed variable set to
`sv`. -/
def envASpeed (sv : Option String) : EnvA :=
  ⟨some "k", none, none, sv, none, some "in.txt", some "out.wav", true, ['h', 'i']⟩

/-- C10: the speed environment value is only ever passed through
`parseFloat`, never range-checked: for any non-instruction model the request
carries `parseFloat(TTS_SPEED || "1.0")` verbatim (`none` — JavaScript `NaN`
— for a non-numeric string, `1` when unset), and a run with an arbitrary
speed string still reaches synthesis and exits 0. -/
theorem speed_unchecked_spec (sv : Option String) (chunk : List Char) :
    (∀ model voice instr : Option String,
        envOr model "tts-1-hd" ≠ "gpt-4o-mini-tts" →
        (buildParamsA model voice instr sv chunk).speed =
          some (jsParseFloat (envOr sv "1.0")))
    ∧ jsParseFloat "abc" = none
    ∧ envOr none "1.0" = "1.0"
    ∧ jsParseFloat "1.0" = some 1
    ∧ (mainA (envASpeed sv) respondR0).exitCode = 0
    ∧ (mainA (envASpeed sv) respondR0).requests =
        [⟨"tts-1-hd", ['h', 'i'], "wav", some "fable",
          some (jsParseFloat (envOr sv "1.0")), none⟩] := by
  have htrim : jsTrim ['h', 'i'] = ['h', 'i'] := by decide
  have hchunks : chunksJs ['h', 'i'] = [['h', 'i']] := by decide
  have hloop : ∀ mk, loopA mk respondR0 0 [['h', 'i']] =
      ⟨1, [mk ['h', 'i']], r0 ++ [], false⟩ := fun _ => rfl
  have hk : truthy (some "k") = true := by decide
  have hin : truthy (some "in.txt") = true := by decide
  have hout : truthy (some "out.wav") = true := by decide
  have hrun : mainA (envASpeed sv) respondR0 =
      ⟨0, none, 1, some (r0 ++ []), true, [buildParamsA none none none sv ['h', 'i']]⟩ := by
    simp [mainA, envASpeed, hk, hin, hout, htrim, hchunks, hloop]
  refine ⟨?_, by decide, rfl, ?_, ?_, ?_⟩
  · intro model voice instr hm
    simp only [buildParamsA, if_neg hm]
  · have h : jsParseFloat "1.0" =
        some ((1 : ℚ) * ((natOfDigits [1] : ℚ)
          + (natOfDigits [0] : ℚ) / 10 ^ ([0] : List Nat).length) * (10 : ℚ) ^ (0 : ℤ)) := rfl
    rw [h]
    norm_num [natOfDigits]
  · rw [hrun]
  · rw [hrun]
    have hne : envOr none "tts-1-hd" ≠ "gpt-4o-mini-tts" := by decide
    simp only [buildParamsA, if_neg hne]
    rfl

/-- C10 witness: the theorem at the out-of-range speed string `99`. -/
theorem speed_unchecked_spec_witness :
    (∀ model voice instr : Option String,
        envOr model "tts-1-hd" ≠ "gpt-4o-mini-tts" →
        (buildParamsA model voice instr (some "99") ['x']).speed =
          some (jsParseFloat (envOr (some "99") "1.0")))
    ∧ jsParseFloat "abc" = none
    ∧ envOr none "1.0" = "1.0"
    ∧ jsParseFloat "1.0" = some 1
    ∧ (mainA (envASpeed (some "99")) respondR0).exitCode = 0
    ∧ (mainA (envASpeed (some "99")) respondR0).requests =
        [⟨"tts-1-hd", ['h', 'i'], "wav", some "fable",
          some (jsParseFloat (envOr (some "99") "1.0")), none⟩] :=
  speed_unchecked_spec (some "99") ['x']

/-- C3 (amended): variant A's `catch` handler does delete the output file, so
a variant-A run that exits non-zero never leaves an output file; but variant
B's `.catch` exits 1 *without* any deletion, so a write that fails after `k`
bytes leaves those `k` bytes on disk. -/
theorem failure_cleanup_spec (ea : EnvA) (respond : Nat → Option (List Nat))
    (eb : EnvB) (pcm : List Nat) (k : Nat)
    (hb1 : truthy eb.GEMINI_API_KEY = true) (hb2 : truthy eb.argvIn = true)
    (hb3 : truthy eb.argvOut = true) (hb4 : eb.inFileExists = true)
    (hb5 : jsTrim eb.inFileContent ≠ []) :
    ((mainA ea respond).exitCode ≠ 0 → (mainA ea respond).outputFile = none)
    ∧ (mainB eb (RespB.audio pcm) (WriteOutcome.failAfter k)).exitCode = 1
    ∧ (mainB eb (RespB.audio pcm) (WriteOutcome.failAfter k)).outputFile =
        some ((saveWav pcm 24000).take k) := by
  refine ⟨?_, ?_, ?_⟩
  · intro hne
    by_cases c1 : truthy ea.OPENAI_API_KEY = true
    · by_cases c2 : truthy ea.argvIn = true
      · by_cases c3 : truthy ea.argvOut = true
        · by_cases c4 : ea.inFileExists = true
          · by_cases c5 : jsTrim ea.inFileContent = []
            · simp [mainA, c1, c2, c3, c4, c5]
            · by_cases c6 : (loopA
                  (buildParamsA ea.TTS_MODEL ea.TTS_VOICE ea.TTS_INSTR ea.TTS_SPEED)
                  respond 0 (chunksJs (jsTrim ea.inFileContent))).failed = true
              · simp [mainA, c1, c2, c3, c4, c5, c6]
              · exfalso
                apply hne
                simp [mainA, c1, c2, c3, c4, c5, c6]
          · simp [mainA, c1, c2, c3, c4]
        · simp [mainA, c1, c2, c3]
      · simp [mainA, c1, c2]
    · simp [mainA, c1]
  · simp [mainB, hb1, hb2, hb3, hb4, hb5]
  · simp [mainB, hb1, hb2, hb3, hb4, hb5]

/-- C3 counterexample: in variant B a write failing after 10 bytes exits 1
with the 10 partially written bytes still on disk — the claimed deletion does
not happen. -/
theorem partial_output_kept_cex :
    (mainB envB0 (RespB.audio [1, 2, 3, 4]) (WriteOutcome.failAfter 10)).exitCode = 1
    ∧ (mainB envB0 (RespB.audio [1, 2, 3, 4]) (WriteOutcome.failAfter 10)).outputFile ≠ none
    ∧ (mainB envB0 (RespB.audio [1, 2, 3, 4]) (WriteOutcome.failAfter 10)).outputFile =
        some ((saveWav [1, 2, 3, 4] 24000).take 10) := by
  refine ⟨by decide, by decide, by decide⟩

/-- C3 witness: the amended theorem at a failing variant-A run (missing
credential) and a failing variant-B write. -/
theorem failure_cleanup_spec_witness :
    (truthy envB0.GEMINI_API_KEY = true ∧ truthy envB0.argvIn = true
     ∧ truthy envB0.argvOut = true ∧ envB0.inFileExists = true
     ∧ jsTrim envB0.inFileContent ≠ []) ∧
    (((mainA envANoKey respondR0).exitCode ≠ 0 →
        (mainA envANoKey respondR0).outputFile = none)
     ∧ (mainB envB0 (RespB.audio [1, 2]) (WriteOutcome.failAfter 3)).exitCode = 1
     ∧ (mainB envB0 (RespB.audio [1, 2]) (WriteOutcome.failAfter 3)).outputFile =
        some ((saveWav [1, 2] 24000).take 3)) :=
  ⟨⟨by decide, by decide, by decide, by decide, by decide⟩,
   failure_cleanup_spec envANoKey respondR0 envB0 [1, 2] 3
     (by decide) (by decide) (by decide) (by decide) (by decide)⟩
